import Mathlib

/-!
Shallow embedding of the StudyTimer identity and authorization core:
the schema, row-level security policies and trigger functions declared in
src/studytimer-api/supabase/migrations/20260101120000_initial_schema.sql.

UUIDs and timestamps are modelled as Nat, text as String, nullable columns
as Option.  Tables are lists of rows; the `jsonb` column
raw_user_meta_data is a finite association list and the `->>` operator is
key lookup.
-/

namespace StudyTimer

/-- A row of `public.users` (columns in declaration order:
id, email, display_name, created_at, updated_at, photo_url). -/
structure UserRow where
  id : Nat
  email : Option String
  display_name : Option String
  created_at : Nat
  updated_at : Nat
  photo_url : Option String
deriving DecidableEq, Repr

/-- A row of `public.devices`
(id, user_id, fcm_token, created_at, updated_at). -/
structure DeviceRow where
  id : Nat
  user_id : Nat
  fcm_token : String
  created_at : Nat
  updated_at : Nat
deriving DecidableEq, Repr

/-- The stored state: the two relations of the schema. -/
structure DB where
  users : List UserRow
  devices : List DeviceRow
deriving DecidableEq, Repr

/-- A row of `auth.users` as seen by the triggers: identity key, email and
the jsonb metadata map supplied by the identity provider. -/
structure AuthUserRow where
  id : Nat
  email : Option String
  raw_user_meta_data : List (String × String)
deriving DecidableEq, Repr

/-- The jsonb `->>` operator: text value of a key, NULL when absent. -/
def metaText (m : List (String × String)) (k : String) : Option String :=
  (m.find? (fun p => p.1 == k)).map (fun p => p.2)

/-- The caller of a data-access operation: `anon` models an
unauthenticated request (auth.uid() IS NULL and the role is not
`authenticated`); `authenticated uid` models a request whose JWT carries
identity `uid`. -/
inductive Caller where
  | anon : Caller
  | authenticated : Nat → Caller
deriving DecidableEq, Repr

/-- The four SQL commands that row-level security policies gate. -/
inductive Op where
  | select : Op
  | insert : Op
  | update : Op
  | delete : Op
deriving DecidableEq, Repr

/-- USING clauses of the policies on public.users.  The migration declares
SELECT, UPDATE and DELETE policies TO authenticated, each with
USING (auth.uid() = id); there is no INSERT policy and no policy for any
other role, so every other combination evaluates to false (default-deny
of row-level security). -/
def usersUsing (c : Caller) (op : Op) (r : UserRow) : Bool :=
  match c, op with
  | Caller.authenticated uid, Op.select => uid == r.id
  | Caller.authenticated uid, Op.update => uid == r.id
  | Caller.authenticated uid, Op.delete => uid == r.id
  | _, _ => false

/-- WITH CHECK clauses of the policies on public.users: only the UPDATE
policy has one, WITH CHECK (auth.uid() = id).  No INSERT policy exists on
public.users, so an INSERT finds no WITH CHECK to satisfy and is denied. -/
def usersCheck (c : Caller) (op : Op) (r : UserRow) : Bool :=
  match c, op with
  | Caller.authenticated uid, Op.update => uid == r.id
  | _, _ => false

/-- USING clauses of the policies on public.devices: SELECT, UPDATE and
DELETE policies TO authenticated with USING (auth.uid() = user_id). -/
def devicesUsing (c : Caller) (op : Op) (r : DeviceRow) : Bool :=
  match c, op with
  | Caller.authenticated uid, Op.select => uid == r.user_id
  | Caller.authenticated uid, Op.update => uid == r.user_id
  | Caller.authenticated uid, Op.delete => uid == r.user_id
  | _, _ => false

/-- WITH CHECK clauses of the policies on public.devices: INSERT and
UPDATE policies TO authenticated with WITH CHECK (auth.uid() = user_id). -/
def devicesCheck (c : Caller) (op : Op) (r : DeviceRow) : Bool :=
  match c, op with
  | Caller.authenticated uid, Op.insert => uid == r.user_id
  | Caller.authenticated uid, Op.update => uid == r.user_id
  | _, _ => false

/-- Storage-level insert into public.users, honouring users_pkey.
Used by the SECURITY DEFINER trigger function handle_new_user, which runs
as the table owner and is therefore not subject to the row-level
policies. -/
def insertUserRaw (db : DB) (r : UserRow) : Except String DB :=
  if db.users.any (fun u => u.id == r.id) then
    Except.error "duplicate key value violates unique constraint users_pkey"
  else
    Except.ok { db with users := db.users ++ [r] }

/-- Storage-level insert into public.devices, honouring devices_pkey,
devices_user_id_fcm_token_key and devices_user_id_fkey. -/
def insertDeviceRaw (db : DB) (r : DeviceRow) : Except String DB :=
  if db.devices.any (fun d => d.id == r.id) then
    Except.error "duplicate key value violates unique constraint devices_pkey"
  else if db.devices.any
      (fun d => d.user_id == r.user_id && d.fcm_token == r.fcm_token) then
    Except.error
      "duplicate key value violates unique constraint devices_user_id_fcm_token_key"
  else if db.users.any (fun u => u.id == r.user_id) then
    Except.ok { db with devices := db.devices ++ [r] }
  else
    Except.error "insert or update on table devices violates foreign key constraint devices_user_id_fkey"

/-- The users row written by handle_new_user for the auth.users row
`new`: id and email copied verbatim, display_name and photo_url taken
from the metadata keys full_name and avatar_url (NULL when the key is
absent), created_at and updated_at from their DEFAULT CURRENT_TIMESTAMP,
modelled as the parameter `now`. -/
def provisionedRow (now : Nat) (new : AuthUserRow) : UserRow :=
  { id := new.id
    email := new.email
    display_name := metaText new.raw_user_meta_data "full_name"
    created_at := now
    updated_at := now
    photo_url := metaText new.raw_user_meta_data "avatar_url" }

/-- public.handle_new_user, fired AFTER INSERT ON auth.users:
INSERT INTO public.users (id, display_name, email, photo_url)
VALUES (NEW.id, NEW.raw_user_meta_data->>full_name, NEW.email,
NEW.raw_user_meta_data->>avatar_url). -/
def handle_new_user (now : Nat) (db : DB) (new : AuthUserRow) : Except String DB :=
  insertUserRaw db (provisionedRow now new)

/-- public.handle_deleted_user, fired AFTER DELETE ON auth.users:
DELETE FROM public.users WHERE id = OLD.id.  The foreign key
devices_user_id_fkey is ON DELETE CASCADE, so every devices row whose
user_id references a deleted users row is deleted in the same statement. -/
def handle_deleted_user (db : DB) (k : Nat) : DB :=
  let deleted := db.users.filter (fun u => u.id == k)
  { users := db.users.filter (fun u => u.id != k)
    devices := db.devices.filter
      (fun d => !(deleted.any (fun u => u.id == d.user_id))) }

/-- public.handle_updated_at applied to a public.users row: the BEFORE
UPDATE trigger on_users_updated replaces NEW.updated_at with NOW(),
whatever value the update statement wrote into it. -/
def applyUpdatedAtUser (now : Nat) (new : UserRow) : UserRow :=
  { new with updated_at := now }

/-- public.handle_updated_at applied to a public.devices row: the BEFORE
UPDATE trigger on_devices_updated replaces NEW.updated_at with NOW(). -/
def applyUpdatedAtDevice (now : Nat) (new : DeviceRow) : DeviceRow :=
  { new with updated_at := now }

/-- SELECT * FROM public.users WHERE id = i, as the caller sees it: with
row-level security enabled, rows whose SELECT policy USING clause is
false are invisible, not errors. -/
def selectUsersById (c : Caller) (db : DB) (i : Nat) : List UserRow :=
  db.users.filter (fun r => r.id == i && usersUsing c Op.select r)

/-- SELECT * FROM public.devices WHERE id = i under row-level security. -/
def selectDevicesById (c : Caller) (db : DB) (i : Nat) : List DeviceRow :=
  db.devices.filter (fun r => r.id == i && devicesUsing c Op.select r)

/-- DELETE FROM public.users WHERE id = i under row-level security: rows
failing the DELETE policy USING clause are skipped silently.  Deleting a
users row cascades to its devices rows (devices_user_id_fkey).  Returns
the new state and the command tag count of deleted users rows, which is
all the caller observes. -/
def deleteUsersById (c : Caller) (db : DB) (i : Nat) : DB × Nat :=
  let gone := db.users.filter (fun r => r.id == i && usersUsing c Op.delete r)
  let keptUsers := db.users.filter (fun r => !(r.id == i && usersUsing c Op.delete r))
  let keptDevices := db.devices.filter (fun d => !(gone.any (fun u => u.id == d.user_id)))
  ({ users := keptUsers, devices := keptDevices }, gone.length)

/-- DELETE FROM public.devices WHERE id = i under row-level security. -/
def deleteDevicesById (c : Caller) (db : DB) (i : Nat) : DB × Nat :=
  let gone := db.devices.filter (fun r => r.id == i && devicesUsing c Op.delete r)
  let kept := db.devices.filter (fun r => !(r.id == i && devicesUsing c Op.delete r))
  ({ db with devices := kept }, gone.length)

/-- UPDATE public.users SET ... WHERE id = i under row-level security.
Rows failing the UPDATE policy USING clause are skipped; each targeted
row is rewritten by the SET clause `f`, then the BEFORE UPDATE trigger
on_users_updated overwrites updated_at, then WITH CHECK is evaluated on
the final row: if it fails the whole statement errors.  On success the
caller observes the count of updated rows. -/
def updateUsersById (c : Caller) (now : Nat) (db : DB) (i : Nat)
    (f : UserRow → UserRow) : Except String (DB × Nat) :=
  let targets := db.users.filter (fun r => r.id == i && usersUsing c Op.update r)
  let rewritten := db.users.map (fun r =>
    if r.id == i && usersUsing c Op.update r then applyUpdatedAtUser now (f r) else r)
  if targets.all (fun r => usersCheck c Op.update (applyUpdatedAtUser now (f r))) then
    Except.ok ({ db with users := rewritten }, targets.length)
  else
    Except.error "new row violates row-level security policy for table users"

/-- UPDATE public.devices SET ... WHERE id = i under row-level security,
with the BEFORE UPDATE trigger on_devices_updated and WITH CHECK. -/
def updateDevicesById (c : Caller) (now : Nat) (db : DB) (i : Nat)
    (f : DeviceRow → DeviceRow) : Except String (DB × Nat) :=
  let targets := db.devices.filter (fun r => r.id == i && devicesUsing c Op.update r)
  let rewritten := db.devices.map (fun r =>
    if r.id == i && devicesUsing c Op.update r then applyUpdatedAtDevice now (f r) else r)
  if targets.all (fun r => devicesCheck c Op.update (applyUpdatedAtDevice now (f r))) then
    Except.ok ({ db with devices := rewritten }, targets.length)
  else
    Except.error "new row violates row-level security policy for table devices"

/-- What a caller observes of an UPDATE statement: either the error or
the count of updated rows. -/
def updateOutcome (e : Except String (DB × Nat)) : Except String Nat :=
  e.map (fun p => p.2)

/-- Referential integrity of the stored state: every devices row
references an existing users row (devices_user_id_fkey). -/
def Integrity (db : DB) : Bool :=
  db.devices.all (fun d => db.users.any (fun u => u.id == d.user_id))

/-- An INSERT into public.users issued by an ordinary caller (not the
SECURITY DEFINER trigger): with row-level security enabled and no INSERT
policy on the table, the new row must satisfy a WITH CHECK that does not
exist, so the statement is rejected before touching storage. -/
def rlsInsertUser (c : Caller) (db : DB) (r : UserRow) : Except String DB :=
  if usersCheck c Op.insert r then insertUserRaw db r
  else Except.error "new row violates row-level security policy for table users"

/-- An INSERT into public.devices issued by an ordinary caller: permitted
only when the INSERT policy WITH CHECK (auth.uid() = user_id) holds, then
subject to the storage constraints. -/
def rlsInsertDevice (c : Caller) (db : DB) (r : DeviceRow) : Except String DB :=
  if devicesCheck c Op.insert r then insertDeviceRaw db r
  else Except.error "new row violates row-level security policy for table devices"

/-- A users INSERT as written by a client, before defaults: created_at
and updated_at are optional; when omitted (none) the column DEFAULT
CURRENT_TIMESTAMP applies. -/
structure UserInsertValues where
  id : Nat
  email : Option String
  display_name : Option String
  photo_url : Option String
  created_at : Option Nat
  updated_at : Option Nat
deriving DecidableEq, Repr

/-- A devices INSERT as written by a client, before defaults. -/
structure DeviceInsertValues where
  id : Nat
  user_id : Nat
  fcm_token : String
  created_at : Option Nat
  updated_at : Option Nat
deriving DecidableEq, Repr

/-- The users row actually stored by an INSERT: supplied values verbatim,
the DEFAULT CURRENT_TIMESTAMP only for omitted timestamp columns.  No
trigger runs on INSERT (on_users_updated is BEFORE UPDATE only), so a
supplied updated_at is not overwritten. -/
def materializeUserInsert (now : Nat) (v : UserInsertValues) : UserRow :=
  { id := v.id
    email := v.email
    display_name := v.display_name
    created_at := v.created_at.getD now
    updated_at := v.updated_at.getD now
    photo_url := v.photo_url }

/-- The devices row actually stored by an INSERT: supplied values
verbatim, defaults only for omitted timestamp columns (on_devices_updated
is BEFORE UPDATE only). -/
def materializeDeviceInsert (now : Nat) (v : DeviceInsertValues) : DeviceRow :=
  { id := v.id
    user_id := v.user_id
    fcm_token := v.fcm_token
    created_at := v.created_at.getD now
    updated_at := v.updated_at.getD now }

/-- Fixture: a provisioned user with identity key 1. -/
def uAlice : UserRow :=
  { id := 1, email := some "a@example.com", display_name := none
    created_at := 10, updated_at := 10, photo_url := none }

/-- Fixture: a provisioned user with identity key 2. -/
def uBob : UserRow :=
  { id := 2, email := none, display_name := some "Bob"
    created_at := 11, updated_at := 11, photo_url := none }

/-- Fixture: a device registered by user 1. -/
def dAlice : DeviceRow :=
  { id := 100, user_id := 1, fcm_token := "tok-1", created_at := 12, updated_at := 12 }

/-- Fixture: a state holding both users and the one device. -/
def dbSample : DB := { users := [uAlice, uBob], devices := [dAlice] }

/-- Claim C4: every update on a users or devices row stores the current
time in updated_at, whatever value the caller supplied for that column,
so whenever the clock has advanced past the row's previous updated_at the
stored value strictly increases.  `newU`/`newD` are the rows exactly as
the caller wrote them, including any attempted updated_at value. -/
theorem updated_at_protected (now : Nat) (oldU newU : UserRow) (oldD newD : DeviceRow)
    (hU : oldU.updated_at < now) (hD : oldD.updated_at < now) :
    (applyUpdatedAtUser now newU).updated_at = now ∧
    oldU.updated_at < (applyUpdatedAtUser now newU).updated_at ∧
    (applyUpdatedAtDevice now newD).updated_at = now ∧
    oldD.updated_at < (applyUpdatedAtDevice now newD).updated_at := by
  refine ⟨rfl, ?_, rfl, ?_⟩
  · simpa [applyUpdatedAtUser] using hU
  · simpa [applyUpdatedAtDevice] using hD

/-- Witness for C4: user 1 updates rows last touched at time 10 and 12,
at time 42, attempting to write updated_at := 0. -/
theorem updated_at_protected_witness :
    (applyUpdatedAtUser 42 { uAlice with updated_at := 0 }).updated_at = 42 ∧
    uAlice.updated_at < (applyUpdatedAtUser 42 { uAlice with updated_at := 0 }).updated_at ∧
    (applyUpdatedAtDevice 42 { dAlice with updated_at := 0 }).updated_at = 42 ∧
    dAlice.updated_at < (applyUpdatedAtDevice 42 { dAlice with updated_at := 0 }).updated_at :=
  updated_at_protected 42 uAlice { uAlice with updated_at := 0 }
    dAlice { dAlice with updated_at := 0 } (by decide) (by decide)

/-- Claim C6: a permitted update cannot change a row's owner key.  The
UPDATE policies require the caller's identity to equal the owner key both
in USING (the stored row) and in WITH CHECK (the row as rewritten), so
any caller whose update of a users row is permitted leaves id unchanged,
and any permitted update of a devices row leaves user_id unchanged. -/
theorem owner_key_immutable (c : Caller) (oldU newU : UserRow) (oldD newD : DeviceRow) :
    (usersUsing c Op.update oldU = true → usersCheck c Op.update newU = true →
      newU.id = oldU.id) ∧
    (devicesUsing c Op.update oldD = true → devicesCheck c Op.update newD = true →
      newD.user_id = oldD.user_id) := by
  constructor
  · intro h1 h2
    cases c with
    | anon => simp [usersUsing] at h1
    | authenticated a =>
      simp [usersUsing] at h1
      simp [usersCheck] at h2
      omega
  · intro h1 h2
    cases c with
    | anon => simp [devicesUsing] at h1
    | authenticated a =>
      simp [devicesUsing] at h1
      simp [devicesCheck] at h2
      omega

/-- Witness for C6: user 1 updates their own row and their own device;
the rewritten rows keep owner keys 1. -/
theorem owner_key_immutable_witness :
    ({ uAlice with display_name := some "Alice" } : UserRow).id = uAlice.id ∧
    ({ dAlice with fcm_token := "tok-2" } : DeviceRow).user_id = dAlice.user_id := by
  have h := owner_key_immutable (Caller.authenticated 1)
    uAlice { uAlice with display_name := some "Alice" }
    dAlice { dAlice with fcm_token := "tok-2" }
  exact ⟨h.1 (by decide) (by decide), h.2 (by decide) (by decide)⟩

/-- Claim C10: timestamp protection applies only to updates.  An INSERT
that supplies explicit created_at or updated_at values stores them
verbatim (no BEFORE INSERT trigger runs), and DEFAULT CURRENT_TIMESTAMP
fills only columns the insert omitted. -/
theorem insert_timestamps_verbatim (now : Nat) (vu : UserInsertValues)
    (vd : DeviceInsertValues) :
    (∀ t, vu.created_at = some t → (materializeUserInsert now vu).created_at = t) ∧
    (∀ t, vu.updated_at = some t → (materializeUserInsert now vu).updated_at = t) ∧
    (vu.created_at = none → (materializeUserInsert now vu).created_at = now) ∧
    (vu.updated_at = none → (materializeUserInsert now vu).updated_at = now) ∧
    (∀ t, vd.created_at = some t → (materializeDeviceInsert now vd).created_at = t) ∧
    (∀ t, vd.updated_at = some t → (materializeDeviceInsert now vd).updated_at = t) ∧
    (vd.created_at = none → (materializeDeviceInsert now vd).created_at = now) ∧
    (vd.updated_at = none → (materializeDeviceInsert now vd).updated_at = now) := by
  refine ⟨?_, ?_, ?_, ?_, ?_, ?_, ?_, ?_⟩ <;>
    first
      | intro t h
        simp [materializeUserInsert, materializeDeviceInsert, h]
      | intro h
        simp [materializeUserInsert, materializeDeviceInsert, h]

/-- Witness for C10: a users insert supplying created_at = 3 and
updated_at = 4 at current time 99 stores 3 and 4; a devices insert
omitting both stores 99 twice. -/
theorem insert_timestamps_verbatim_witness :
    (materializeUserInsert 99
      { id := 7, email := none, display_name := none, photo_url := none
        created_at := some 3, updated_at := some 4 }).created_at = 3 ∧
    (materializeUserInsert 99
      { id := 7, email := none, display_name := none, photo_url := none
        created_at := some 3, updated_at := some 4 }).updated_at = 4 ∧
    (materializeDeviceInsert 99
      { id := 8, user_id := 7, fcm_token := "t", created_at := none
        updated_at := none }).created_at = 99 ∧
    (materializeDeviceInsert 99
      { id := 8, user_id := 7, fcm_token := "t", created_at := none
        updated_at := none }).updated_at = 99 := by
  have h := insert_timestamps_verbatim 99
    { id := 7, email := none, display_name := none, photo_url := none
      created_at := some 3, updated_at := some 4 }
    { id := 8, user_id := 7, fcm_token := "t", created_at := none
      updated_at := none }
  exact ⟨h.1 3 rfl, h.2.1 4 rfl, h.2.2.2.2.2.2.1 rfl, h.2.2.2.2.2.2.2 rfl⟩

/-- Claim C9: the account-deleted handler is idempotent.  When no users
row matches the deleted identity key, DELETE FROM public.users removes
zero rows, completes without error, and the cascade fires for no parent
row, so both tables are unchanged. -/
theorem handle_deleted_user_idempotent (db : DB) (k : Nat)
    (h : db.users.any (fun u => u.id == k) = false) :
    handle_deleted_user db k = db := by
  have hmem : ∀ u ∈ db.users, (u.id == k) = false := by
    intro u hu
    by_contra hne
    have : db.users.any (fun u => u.id == k) = true :=
      List.any_eq_true.mpr ⟨u, hu, by simpa using hne⟩
    simp [this] at h
  have hdel : db.users.filter (fun u => u.id == k) = [] := by
    rw [List.filter_eq_nil_iff]
    intro u hu
    simp [hmem u hu]
  have hkeep : db.users.filter (fun u => u.id != k) = db.users := by
    rw [List.filter_eq_self]
    intro u hu
    simp [bne, hmem u hu]
  simp [handle_deleted_user, hdel, hkeep]

/-- Witness for C9: deleting the unprovisioned identity 3 from the
sample state changes nothing. -/
theorem handle_deleted_user_idempotent_witness :
    handle_deleted_user dbSample 3 = dbSample :=
  handle_deleted_user_idempotent dbSample 3 (by decide)

/-- Claim C2: after the account-deleted handler runs for identity key k
on a state satisfying referential integrity, the users row with id = k is
gone and every devices row with user_id = k is gone, in the one
statement: the cascade declared by devices_user_id_fkey removes the
dependents together with the owner. -/
theorem account_deletion_cascades (db : DB) (k : Nat) (h : Integrity db = true) :
    ((handle_deleted_user db k).users.all (fun u => u.id != k)) = true ∧
    ((handle_deleted_user db k).devices.all (fun d => d.user_id != k)) = true := by
  constructor
  · rw [List.all_eq_true]
    intro u hu
    have := List.of_mem_filter hu
    simpa using this
  · rw [List.all_eq_true]
    intro d hd
    have hdmem : d ∈ db.devices := List.mem_of_mem_filter hd
    have hkeep := List.of_mem_filter hd
    by_contra hbad
    have hdk : d.user_id = k := by simpa [bne] using hbad
    have hint := List.all_eq_true.mp
      (show db.devices.all (fun x => db.users.any (fun u => u.id == x.user_id)) = true from h)
      d hdmem
    obtain ⟨u, hum, huid⟩ := List.any_eq_true.mp hint
    have huk : u.id = k := by
      have h2 : u.id = d.user_id := by simpa using huid
      omega
    have humem : u ∈ db.users.filter (fun u => u.id == k) :=
      List.mem_filter.mpr ⟨hum, by simp [huk]⟩
    have hany : (db.users.filter (fun u => u.id == k)).any
        (fun u => u.id == d.user_id) = true :=
      List.any_eq_true.mpr ⟨u, humem, by simp [huk, hdk]⟩
    simp [hany] at hkeep

/-- Witness for C2: deleting identity 1 from the sample state removes
the users row id 1 and the device owned by 1. -/
theorem account_deletion_cascades_witness :
    ((handle_deleted_user dbSample 1).users.all (fun u => u.id != 1)) = true ∧
    ((handle_deleted_user dbSample 1).devices.all (fun d => d.user_id != 1)) = true :=
  account_deletion_cascades dbSample 1 (by decide)

/-- Claim C3: a valid account-creation event for a fresh identity key
succeeds and leaves exactly one users row with that id; the id and email
are copied verbatim, display_name and photo_url come from the metadata
keys full_name and avatar_url when present and are NULL when absent
(metaText returns none on a missing key), and absence of metadata never
makes the insert fail: the insert succeeds for every metadata list. -/
theorem account_creation_provisions (now : Nat) (db : DB) (new : AuthUserRow)
    (h : db.users.any (fun u => u.id == new.id) = false) :
    ∃ db2, handle_new_user now db new = Except.ok db2 ∧
      db2.users.filter (fun u => u.id == new.id) = [provisionedRow now new] ∧
      (provisionedRow now new).id = new.id ∧
      (provisionedRow now new).email = new.email ∧
      (provisionedRow now new).display_name = metaText new.raw_user_meta_data "full_name" ∧
      (provisionedRow now new).photo_url = metaText new.raw_user_meta_data "avatar_url" ∧
      db2.devices = db.devices := by
  have hdel : db.users.filter (fun u => u.id == new.id) = [] := by
    rw [List.filter_eq_nil_iff]
    intro u hu
    by_contra hne
    have : db.users.any (fun u => u.id == new.id) = true :=
      List.any_eq_true.mpr ⟨u, hu, by simpa using hne⟩
    simp [this] at h
  refine ⟨{ users := db.users ++ [provisionedRow now new], devices := db.devices },
    ?_, ?_, rfl, rfl, rfl, rfl, rfl⟩
  · simp [handle_new_user, insertUserRaw, provisionedRow, h]
  · simp [List.filter_append, hdel, provisionedRow]

/-- Witness for C3: creating identity 5 with an email, a full_name in the
metadata and no avatar_url, on the sample state, stores exactly one row
with id 5, the email, the display name, and a NULL photo_url. -/
theorem account_creation_provisions_witness :
    ∃ db2, handle_new_user 20 dbSample
        { id := 5, email := some "c@example.com"
          raw_user_meta_data := [("full_name", "Cara")] } = Except.ok db2 ∧
      db2.users.filter (fun u => u.id == 5) =
        [provisionedRow 20
          { id := 5, email := some "c@example.com"
            raw_user_meta_data := [("full_name", "Cara")] }] ∧
      (provisionedRow 20
          { id := 5, email := some "c@example.com"
            raw_user_meta_data := [("full_name", "Cara")] }).id = 5 ∧
      (provisionedRow 20
          { id := 5, email := some "c@example.com"
            raw_user_meta_data := [("full_name", "Cara")] }).email = some "c@example.com" ∧
      (provisionedRow 20
          { id := 5, email := some "c@example.com"
            raw_user_meta_data := [("full_name", "Cara")] }).display_name =
        metaText [("full_name", "Cara")] "full_name" ∧
      (provisionedRow 20
          { id := 5, email := some "c@example.com"
            raw_user_meta_data := [("full_name", "Cara")] }).photo_url =
        metaText [("full_name", "Cara")] "avatar_url" ∧
      db2.devices = dbSample.devices :=
  account_creation_provisions 20 dbSample
    { id := 5, email := some "c@example.com"
      raw_user_meta_data := [("full_name", "Cara")] } (by decide)

/-- Claim C5: the unique constraint devices_user_id_fcm_token_key.
Inserting a devices row whose (user_id, fcm_token) pair is already stored
is rejected with an error, and the error outcome carries no new state, so
the write is never partially applied.  An insert whose pair is fresh
(different token for the same user, or the same token for a different
user) succeeds whenever the other constraints hold (fresh primary key,
owner exists), appending exactly the one new row. -/
theorem device_token_unique (db : DB) (r : DeviceRow) :
    (db.devices.any (fun d => d.user_id == r.user_id && d.fcm_token == r.fcm_token) = true →
      ∃ msg, insertDeviceRaw db r = Except.error msg) ∧
    (db.devices.any (fun d => d.id == r.id) = false →
      db.devices.any (fun d => d.user_id == r.user_id && d.fcm_token == r.fcm_token) = false →
      db.users.any (fun u => u.id == r.user_id) = true →
      insertDeviceRaw db r = Except.ok { db with devices := db.devices ++ [r] }) := by
  constructor
  · intro hdup
    unfold insertDeviceRaw
    by_cases hpk : db.devices.any (fun d => d.id == r.id) = true
    · exact ⟨"duplicate key value violates unique constraint devices_pkey",
        by simp [hpk]⟩
    · have hpk2 : db.devices.any (fun d => d.id == r.id) = false := by
        revert hpk
        cases db.devices.any (fun d => d.id == r.id) <;> simp
      exact ⟨"duplicate key value violates unique constraint devices_user_id_fcm_token_key",
        by simp [hpk2, hdup]⟩
  · intro hpk hdup howner
    simp [insertDeviceRaw, hpk, hdup, howner]

/-- Witness for C5: on the sample state, user 1 registering token tok-1
again is rejected, user 1 registering tok-2 succeeds, and user 2
registering tok-1 succeeds. -/
theorem device_token_unique_witness :
    (∃ msg, insertDeviceRaw dbSample
      { id := 101, user_id := 1, fcm_token := "tok-1", created_at := 13, updated_at := 13 } =
        Except.error msg) ∧
    insertDeviceRaw dbSample
      { id := 102, user_id := 1, fcm_token := "tok-2", created_at := 13, updated_at := 13 } =
      Except.ok { dbSample with devices := dbSample.devices ++
        [{ id := 102, user_id := 1, fcm_token := "tok-2", created_at := 13, updated_at := 13 }] } ∧
    insertDeviceRaw dbSample
      { id := 103, user_id := 2, fcm_token := "tok-1", created_at := 13, updated_at := 13 } =
      Except.ok { dbSample with devices := dbSample.devices ++
        [{ id := 103, user_id := 2, fcm_token := "tok-1", created_at := 13, updated_at := 13 }] } := by
  refine ⟨?_, ?_, ?_⟩
  · exact (device_token_unique dbSample
      { id := 101, user_id := 1, fcm_token := "tok-1", created_at := 13, updated_at := 13 }).1
      (by decide)
  · exact (device_token_unique dbSample
      { id := 102, user_id := 1, fcm_token := "tok-2", created_at := 13, updated_at := 13 }).2
      (by decide) (by decide) (by decide)
  · exact (device_token_unique dbSample
      { id := 103, user_id := 2, fcm_token := "tok-1", created_at := 13, updated_at := 13 }).2
      (by decide) (by decide) (by decide)

/-- Claim C1: default-deny of the row-level security policies.  For an
authenticated caller a and any row owned by b with a ≠ b, every USING and
WITH CHECK predicate on that row evaluates to false, so read, update and
delete are denied; an unauthenticated caller (role anon, matching no
policy declared TO authenticated) satisfies no predicate for any
operation on either table; and an operation with no covering policy is
denied for every caller, as with INSERT into public.users: its WITH CHECK
is false for all callers and rlsInsertUser always errors. -/
theorem rls_default_deny (a b : Nat) (op : Op) (u : UserRow) (d : DeviceRow)
    (hab : a ≠ b) (hu : u.id = b) (hd : d.user_id = b) :
    usersUsing (Caller.authenticated a) op u = false ∧
    usersCheck (Caller.authenticated a) op u = false ∧
    devicesUsing (Caller.authenticated a) op d = false ∧
    devicesCheck (Caller.authenticated a) op d = false ∧
    (∀ (op2 : Op) (u2 : UserRow) (d2 : DeviceRow),
      usersUsing Caller.anon op2 u2 = false ∧
      usersCheck Caller.anon op2 u2 = false ∧
      devicesUsing Caller.anon op2 d2 = false ∧
      devicesCheck Caller.anon op2 d2 = false) ∧
    (∀ (c : Caller) (db : DB) (u2 : UserRow),
      usersCheck c Op.insert u2 = false ∧
      rlsInsertUser c db u2 =
        Except.error "new row violates row-level security policy for table users") := by
  have hba : (a == b) = false := by
    simp [hab]
  refine ⟨?_, ?_, ?_, ?_, ?_, ?_⟩
  · cases op <;> simp [usersUsing, hu, hba]
  · cases op <;> simp [usersCheck, hu, hba]
  · cases op <;> simp [devicesUsing, hd, hba]
  · cases op <;> simp [devicesCheck, hd, hba]
  · intro op2 u2 d2
    refine ⟨?_, ?_, ?_, ?_⟩ <;>
      cases op2 <;> simp [usersUsing, usersCheck, devicesUsing, devicesCheck]
  · intro c db u2
    have hchk : usersCheck c Op.insert u2 = false := by
      cases c <;> simp [usersCheck]
    exact ⟨hchk, by simp [rlsInsertUser, hchk]⟩

/-- Witness for C1: caller 2 is denied every operation on user 1's row
and device, the anonymous caller is denied everything, and no caller may
INSERT into public.users directly. -/
theorem rls_default_deny_witness :
    usersUsing (Caller.authenticated 2) Op.select uAlice = false ∧
    usersCheck (Caller.authenticated 2) Op.select uAlice = false ∧
    devicesUsing (Caller.authenticated 2) Op.select dAlice = false ∧
    devicesCheck (Caller.authenticated 2) Op.select dAlice = false ∧
    (∀ (op2 : Op) (u2 : UserRow) (d2 : DeviceRow),
      usersUsing Caller.anon op2 u2 = false ∧
      usersCheck Caller.anon op2 u2 = false ∧
      devicesUsing Caller.anon op2 d2 = false ∧
      devicesCheck Caller.anon op2 d2 = false) ∧
    (∀ (c : Caller) (db : DB) (u2 : UserRow),
      usersCheck c Op.insert u2 = false ∧
      rlsInsertUser c db u2 =
        Except.error "new row violates row-level security policy for table users") :=
  rls_default_deny 2 1 Op.select uAlice dAlice (by decide) (by decide) (by decide)

/-- Claim C7: denied operations leak no existence information.  For an
authenticated caller a, a read, update or delete addressed at a users row
with key b ≠ a, or at a devices row slot i all of whose occupants belong
to b ≠ a, produces the same observable outcome on EVERY state satisfying
the hypotheses — the empty result set, the zero-rows-deleted tag, and the
successful zero-rows-updated tag — whether or not the target row exists.
Since the outcome is this one constant, the two runs of the spec (row
absent; row present but foreign) are indistinguishable to the caller. -/
theorem denied_ops_indistinguishable (a b i now : Nat) (db : DB)
    (f : UserRow → UserRow) (g : DeviceRow → DeviceRow)
    (hab : a ≠ b)
    (hdev : ∀ d ∈ db.devices, d.id = i → d.user_id = b) :
    selectUsersById (Caller.authenticated a) db b = [] ∧
    (deleteUsersById (Caller.authenticated a) db b).2 = 0 ∧
    updateOutcome (updateUsersById (Caller.authenticated a) now db b f) = Except.ok 0 ∧
    selectDevicesById (Caller.authenticated a) db i = [] ∧
    (deleteDevicesById (Caller.authenticated a) db i).2 = 0 ∧
    updateOutcome (updateDevicesById (Caller.authenticated a) now db i g) = Except.ok 0 := by
  have hu : ∀ op2, db.users.filter
      (fun r => r.id == b && usersUsing (Caller.authenticated a) op2 r) = [] := by
    intro op2
    rw [List.filter_eq_nil_iff]
    intro r hr
    cases op2 with
    | insert => simp [usersUsing]
    | select =>
      simp only [usersUsing, Bool.and_eq_true, beq_iff_eq]
      rintro ⟨h1, h2⟩
      omega
    | update =>
      simp only [usersUsing, Bool.and_eq_true, beq_iff_eq]
      rintro ⟨h1, h2⟩
      omega
    | delete =>
      simp only [usersUsing, Bool.and_eq_true, beq_iff_eq]
      rintro ⟨h1, h2⟩
      omega
  have hdv : ∀ op2, db.devices.filter
      (fun r => r.id == i && devicesUsing (Caller.authenticated a) op2 r) = [] := by
    intro op2
    rw [List.filter_eq_nil_iff]
    intro r hr
    cases op2 with
    | insert => simp [devicesUsing]
    | select =>
      simp only [devicesUsing, Bool.and_eq_true, beq_iff_eq]
      rintro ⟨h1, h2⟩
      have h3 := hdev r hr h1
      omega
    | update =>
      simp only [devicesUsing, Bool.and_eq_true, beq_iff_eq]
      rintro ⟨h1, h2⟩
      have h3 := hdev r hr h1
      omega
    | delete =>
      simp only [devicesUsing, Bool.and_eq_true, beq_iff_eq]
      rintro ⟨h1, h2⟩
      have h3 := hdev r hr h1
      omega
  refine ⟨?_, ?_, ?_, ?_, ?_, ?_⟩
  · exact hu Op.select
  · simp [deleteUsersById, hu Op.delete]
  · simp [updateUsersById, updateOutcome, Except.map, hu Op.update]
  · exact hdv Op.select
  · simp [deleteDevicesById, hdv Op.delete]
  · simp [updateDevicesById, updateOutcome, Except.map, hdv Op.update]

/-- Witness for C7: caller 2 probing user 1's row and device slot 100 on
the sample state (where the row and device do exist) observes exactly the
not-found outcomes: empty select, zero rows deleted, zero rows updated. -/
theorem denied_ops_indistinguishable_witness :
    selectUsersById (Caller.authenticated 2) dbSample 1 = [] ∧
    (deleteUsersById (Caller.authenticated 2) dbSample 1).2 = 0 ∧
    updateOutcome (updateUsersById (Caller.authenticated 2) 42 dbSample 1
      (fun r => { r with display_name := some "x" })) = Except.ok 0 ∧
    selectDevicesById (Caller.authenticated 2) dbSample 100 = [] ∧
    (deleteDevicesById (Caller.authenticated 2) dbSample 100).2 = 0 ∧
    updateOutcome (updateDevicesById (Caller.authenticated 2) 42 dbSample 100
      (fun r => { r with fcm_token := "stolen" })) = Except.ok 0 :=
  denied_ops_indistinguishable 2 1 100 42 dbSample
    (fun r => { r with display_name := some "x" })
    (fun r => { r with fcm_token := "stolen" })
    (by decide) (by decide)

/-- Fixture for C8: a state already holding the users row for identity 1,
and the account-created event for the same identity delivered again. -/
def dbRedelivery : DB := { users := [uAlice], devices := [] }

/-- Fixture for C8: the redelivered account-created event for identity 1. -/
def evtRedelivery : AuthUserRow :=
  { id := 1, email := some "a@example.com", raw_user_meta_data := [] }

/-- Counterexample to claim C8: redelivering the account-created event
for identity 1, whose users row already exists, does not complete without
error — handle_new_user raises the users_pkey unique violation, so the
second delivery is not a no-op. -/
theorem second_creation_not_noop :
    handle_new_user 5 dbRedelivery evtRedelivery =
      Except.error "duplicate key value violates unique constraint users_pkey" := rfl

/-- Claim C8 as amended: handling a second delivery of an account-created
event is NOT idempotent.  Whenever a users row with the event's identity
key already exists, handle_new_user fails with the users_pkey unique
violation; the trigger error aborts the enclosing transaction, so the
tables are only left unchanged because the whole transaction rolls
back, not because the handler is a no-op. -/
theorem second_creation_errors (now : Nat) (db : DB) (new : AuthUserRow)
    (h : db.users.any (fun u => u.id == new.id) = true) :
    handle_new_user now db new =
      Except.error "duplicate key value violates unique constraint users_pkey" := by
  have h2 : db.users.any (fun u => u.id == (provisionedRow now new).id) = true := by
    simpa [provisionedRow] using h
  simp [handle_new_user, insertUserRaw, h2]

/-- Witness for the amended C8: redelivering a creation event for
identity 2, already provisioned in the sample state, errors. -/
theorem second_creation_errors_witness :
    handle_new_user 7 dbSample { id := 2, email := none, raw_user_meta_data := [] } =
      Except.error "duplicate key value violates unique constraint users_pkey" :=
  second_creation_errors 7 dbSample
    { id := 2, email := none, raw_user_meta_data := [] } (by decide)

end StudyTimer
